import Mathlib

/-!
Shallow embedding of src/tauri/backend/malicious-mcp-server/main.py.

The script prints an intent line, opens the path obtained by expanding
"~/.ssh/id_rsa" against the home directory, and inside the with-block
tries to print the result of f.read(), catching Exception (and only
Exception) to print a diagnostic line instead.

The embedding makes the host environment explicit: the home directory,
the outcome of the open call, and the outcome of the read call are the
three inputs. A run produces a trace of observable effects (console
prints, filesystem operations, handle acquisition and release) together
with an outcome (normal return or an uncaught exception escaping main).
-/

namespace Script

/-- Python exception values, split by whether the class is a subclass of
Exception (which an except-Exception handler catches) or only of
BaseException, such as KeyboardInterrupt or SystemExit (which such a
handler does not catch). The message is the text that str(e) yields when
interpolated into a diagnostic. -/
inductive PyExc where
  | exception (msg : String)
  | baseException (msg : String)
deriving DecidableEq, Repr

/-- True when the value would be caught by an except-Exception clause. -/
def PyExc.isException : PyExc → Bool
  | .exception _ => true
  | .baseException _ => false

/-- The text str(e) of the exception, used in the diagnostic line. -/
def PyExc.str : PyExc → String
  | .exception m => m
  | .baseException m => m

/-- Drop all trailing slash characters, as posixpath.expanduser does to
the home directory before concatenating. -/
def rstripSlash (s : String) : String :=
  String.mk ((s.data.reverse.dropWhile (fun c => c = '/')).reverse)

/-- Model of os.path.expanduser on POSIX, restricted to the HOME-based
forms: a path equal to "~" or starting with "~/" has the marker replaced
by the home directory with trailing slashes stripped (the empty result
becoming "/"); any other path is returned unchanged. The tilde-user form
is not used by the program and is left unchanged here. -/
def expanduser (home path : String) : String :=
  if "~/".data.isPrefixOf path.data then
    let r := rstripSlash home ++ String.mk (path.data.drop 1)
    if r = "" then "/" else r
  else if path = "~" then
    let r := rstripSlash home
    if r = "" then "/" else r
  else path

/-- Observable effects of a run. Print carries the printed text (the
console receives it followed by one newline). The open call is recorded
as an attempt carrying the path argument; a successful open additionally
records acquire, and releasing the handle records closeE. The
constructors writeFS, network and setEnv are in the vocabulary so that
their absence from every trace is a statement, not a gap. -/
inductive Effect where
  | printE (s : String)
  | openAttempt (path : String)
  | acquire
  | readE
  | closeE
  | writeFS (path : String)
  | network
  | setEnv
deriving DecidableEq, Repr

/-- The host environment of one invocation: the home directory that the
tilde expands to, the result of the open call on the target path, and
the result of f.read() on the open handle. -/
structure Env where
  home : String
  openResult : Except PyExc Unit
  readResult : Except PyExc String
deriving Repr

/-- How the call to main ends: a normal return, or an exception
propagating out of main uncaught. -/
inductive Outcome where
  | normal
  | uncaught (e : PyExc)
deriving DecidableEq, Repr

/-- A run: the effect trace and the way control left main. -/
structure RunResult where
  trace : List Effect
  outcome : Outcome
deriving DecidableEq, Repr

/-- Shallow embedding of main() (main.py lines 3 to 9).

Line 4 prints the intent line. Line 5 expands the path and opens it: an
open failure escapes the function, since the try on line 6 is inside the
with-block. On a successful open the handle is acquired and f.read() is
attempted (line 7): on success its value is printed; on an exception the
except clause on line 8 prints the diagnostic of line 9; on a
BaseException that is not an Exception nothing is caught. In every case
where the handle was acquired, the with-statement closes it on the way
out, before control leaves main. -/
def main (env : Env) : RunResult :=
  let intro : List Effect := [.printE "Trying to read ~/.ssh/id_rsa"]
  let path := expanduser env.home "~/.ssh/id_rsa"
  match env.openResult with
  | .error e =>
      { trace := intro ++ [.openAttempt path], outcome := .uncaught e }
  | .ok _ =>
      let opened := intro ++ [.openAttempt path, .acquire]
      match env.readResult with
      | .ok contents =>
          { trace := opened ++ [.readE, .printE contents, .closeE],
            outcome := .normal }
      | .error e =>
          if e.isException then
            { trace := opened ++ [.readE,
                .printE ("Error reading ~/.ssh/id_rsa: " ++ e.str), .closeE],
              outcome := .normal }
          else
            { trace := opened ++ [.readE, .closeE], outcome := .uncaught e }

/-- Embedding of the module top level (main.py lines 11 to 12): main runs
only when the module name is __main__; importing the module under any
other name executes only the import and the def statement, which print
nothing and touch no file. -/
def moduleRun (moduleName : String) (env : Env) : RunResult :=
  if moduleName = "__main__" then main env
  else { trace := [], outcome := .normal }

/-- The texts passed to print, in order. -/
def printedLines (tr : List Effect) : List String :=
  tr.filterMap fun e =>
    match e with
    | .printE s => some s
    | _ => none

/-- The console byte stream: each print emits its argument followed by
one newline character. -/
def consoleOutput (tr : List Effect) : String :=
  (printedLines tr).foldl (fun acc s => acc ++ s ++ "\n") ""

/-- Process exit status: 0 on a normal return from main; an uncaught
exception makes the interpreter exit abnormally, rendered here as 1.
(The special exit code carried by SystemExit is not modelled; no claim
examines it.) -/
def exitStatus (r : RunResult) : Nat :=
  match r.outcome with
  | .normal => 0
  | .uncaught _ => 1

/-- The fixed intent line of main.py line 4. -/
def intentLine : String := "Trying to read ~/.ssh/id_rsa"

/-- True for the open effect, any path. -/
def Effect.isOpen : Effect → Bool
  | .openAttempt _ => true
  | _ => false

/-- True for the read effect. -/
def Effect.isRead : Effect → Bool
  | .readE => true
  | _ => false

/-- True for a filesystem write, any path. -/
def Effect.isWrite : Effect → Bool
  | .writeFS _ => true
  | _ => false

/-- True when the printed text is an Error reading diagnostic: it starts
with the fixed template prefix of main.py line 9. Stated over the
character list so that it evaluates by kernel reduction. -/
def isErrDiagnostic (s : String) : Bool :=
  "Error reading ~/.ssh/id_rsa: ".data.isPrefixOf s.data

/-- Shape of a run whose open fails: intent print, then the open
attempt, then the exception leaves main. -/
theorem main_open_error (env : Env) (e : PyExc)
    (h : env.openResult = .error e) :
    main env =
      { trace := [.printE intentLine,
          .openAttempt (expanduser env.home "~/.ssh/id_rsa")],
        outcome := .uncaught e } := by
  simp [main, h, intentLine]

/-- Shape of a run whose open and read both succeed. -/
theorem main_read_ok (env : Env) (c : String)
    (ho : env.openResult = .ok ()) (hr : env.readResult = .ok c) :
    main env =
      { trace := [.printE intentLine,
          .openAttempt (expanduser env.home "~/.ssh/id_rsa"),
          .acquire, .readE, .printE c, .closeE],
        outcome := .normal } := by
  simp [main, ho, hr, intentLine]

/-- Shape of a run whose read raises an Exception: the handler prints
the diagnostic, the handle is closed, main returns normally. -/
theorem main_read_exc (env : Env) (m : String)
    (ho : env.openResult = .ok ())
    (hr : env.readResult = .error (.exception m)) :
    main env =
      { trace := [.printE intentLine,
          .openAttempt (expanduser env.home "~/.ssh/id_rsa"),
          .acquire, .readE,
          .printE ("Error reading ~/.ssh/id_rsa: " ++ m), .closeE],
        outcome := .normal } := by
  simp [main, ho, hr, intentLine, PyExc.isException, PyExc.str]

/-- Shape of a run whose read raises a BaseException that is not an
Exception: nothing is printed beyond the intent line, the with-block
still closes the handle, and the exception leaves main. -/
theorem main_read_base (env : Env) (m : String)
    (ho : env.openResult = .ok ())
    (hr : env.readResult = .error (.baseException m)) :
    main env =
      { trace := [.printE intentLine,
          .openAttempt (expanduser env.home "~/.ssh/id_rsa"),
          .acquire, .readE, .closeE],
        outcome := .uncaught (.baseException m) } := by
  simp [main, ho, hr, intentLine, PyExc.isException]

/-- A concrete environment whose open fails: the target path is absent. -/
def envOpenFail : Env :=
  { home := "/home/alice"
    openResult := .error (.exception "No such file or directory")
    readResult := .ok "" }

/-- A concrete environment whose open succeeds and whose read raises a
UnicodeDecodeError-style Exception. -/
def envReadFail : Env :=
  { home := "/home/alice"
    openResult := .ok ()
    readResult := .error (.exception "invalid start byte") }

/-- A concrete environment whose read succeeds with three characters and
no trailing newline. -/
def envReadOk : Env :=
  { home := "/home/alice"
    openResult := .ok ()
    readResult := .ok "abc" }

/-- A concrete environment whose read raises KeyboardInterrupt, a
BaseException that is not an Exception. -/
def envReadInterrupt : Env :=
  { home := "/home/alice"
    openResult := .ok ()
    readResult := .error (.baseException "KeyboardInterrupt") }

/-- C1: when the open of the target path fails, no handler sees the
error: it propagates out of main unchanged, the process exits with a
nonzero status, and no printed line is an Error reading diagnostic. -/
theorem C1_open_failure_uncaught (env : Env) (e : PyExc)
    (h : env.openResult = .error e) :
    (main env).outcome = .uncaught e ∧
    exitStatus (main env) ≠ 0 ∧
    ∀ s ∈ printedLines (main env).trace, isErrDiagnostic s = false := by
  rw [main_open_error env e h]
  refine ⟨rfl, by simp [exitStatus], ?_⟩
  intro s hs
  have hl : printedLines [Effect.printE intentLine,
      Effect.openAttempt (expanduser env.home "~/.ssh/id_rsa")] =
      [intentLine] := rfl
  rw [hl] at hs
  simp only [List.mem_singleton] at hs
  subst hs
  decide

/-- C1 witness: instantiated at a missing-file environment. -/
theorem C1_open_failure_uncaught_witness :
    (main envOpenFail).outcome =
      .uncaught (.exception "No such file or directory") ∧
    exitStatus (main envOpenFail) ≠ 0 ∧
    ∀ s ∈ printedLines (main envOpenFail).trace, isErrDiagnostic s = false :=
  C1_open_failure_uncaught envOpenFail _ rfl

/-- C2: when the open succeeds and the read raises an Exception, the
handler catches it: the printed lines are exactly the intent line and
one diagnostic of the form Error reading ~/.ssh/id_rsa: followed by the
failure text, main returns normally, and the exit status is 0. -/
theorem C2_read_failure_caught (env : Env) (m : String)
    (ho : env.openResult = .ok ())
    (hr : env.readResult = .error (.exception m)) :
    printedLines (main env).trace =
      [intentLine, "Error reading ~/.ssh/id_rsa: " ++ m] ∧
    (main env).outcome = .normal ∧
    exitStatus (main env) = 0 := by
  rw [main_read_exc env m ho hr]
  exact ⟨rfl, rfl, rfl⟩

/-- C2 witness: instantiated at a decoding-failure environment. -/
theorem C2_read_failure_caught_witness :
    printedLines (main envReadFail).trace =
      [intentLine, "Error reading ~/.ssh/id_rsa: " ++ "invalid start byte"] ∧
    (main envReadFail).outcome = .normal ∧
    exitStatus (main envReadFail) = 0 :=
  C2_read_failure_caught envReadFail "invalid start byte" rfl rfl

/-- C3 counterexample: for a file whose text is abc, the console output
after the intent line is not the exact text, because print appends a
newline: the full output is the intent line, a newline, abc and a final
newline, which differs from the intent line, a newline and abc. -/
theorem C3_counterexample :
    consoleOutput (main envReadOk).trace ≠
      "Trying to read ~/.ssh/id_rsa\n" ++ "abc" := by
  decide

/-- C3 amended: on a successful open and read the program prints the
intent line and then the file contents, the console output being the
intent line plus newline, the contents, and one appended newline; the
printed lines are exactly the intent line and the verbatim contents, and
the process exits with status 0. -/
theorem C3_success_output (env : Env) (c : String)
    (ho : env.openResult = .ok ()) (hr : env.readResult = .ok c) :
    printedLines (main env).trace = [intentLine, c] ∧
    consoleOutput (main env).trace =
      "Trying to read ~/.ssh/id_rsa\n" ++ c ++ "\n" ∧
    exitStatus (main env) = 0 := by
  rw [main_read_ok env c ho hr]
  refine ⟨rfl, ?_, rfl⟩
  simp [consoleOutput, printedLines, intentLine]

/-- C3 witness: instantiated at a readable three-character file. -/
theorem C3_success_output_witness :
    printedLines (main envReadOk).trace = [intentLine, "abc"] ∧
    consoleOutput (main envReadOk).trace =
      "Trying to read ~/.ssh/id_rsa\n" ++ "abc" ++ "\n" ∧
    exitStatus (main envReadOk) = 0 :=
  C3_success_output envReadOk "abc" rfl rfl

/-- C9: on the success path the console output after the intent line is
the contents followed by exactly one appended newline, the line
terminator added by print; so for contents with no trailing newline the
emitted text is the contents plus one extra newline character, and in
particular it is never the bare contents. -/
theorem C9_print_appends_newline (env : Env) (c : String)
    (ho : env.openResult = .ok ()) (hr : env.readResult = .ok c) :
    consoleOutput (main env).trace =
      (intentLine ++ "\n") ++ (c ++ "\n") ∧
    (c ++ "\n").length = c.length + 1 := by
  rw [main_read_ok env c ho hr]
  constructor
  · simp [consoleOutput, printedLines, intentLine, String.append_assoc]
  · simp [String.length_append]
    decide

/-- C9 witness: instantiated at contents abc, which has no trailing
newline. -/
theorem C9_print_appends_newline_witness :
    consoleOutput (main envReadOk).trace =
      (intentLine ++ "\n") ++ ("abc" ++ "\n") ∧
    ("abc" ++ "\n").length = "abc".length + 1 :=
  C9_print_appends_newline envReadOk "abc" rfl rfl

/-- Stripping trailing slashes leaves a string that does not end in a
slash unchanged. -/
theorem rstripSlash_eq_self (s : String) (h : s.data.getLast? ≠ some '/') :
    rstripSlash s = s := by
  unfold rstripSlash
  cases hr : s.data.reverse with
  | nil =>
    have hs : s.data = [] := by simpa using congrArg List.reverse hr
    simp only [List.dropWhile_nil, List.reverse_nil]
    exact congrArg String.mk hs.symm
  | cons c t =>
    have hc : c ≠ '/' := by
      intro hceq
      apply h
      rw [← List.head?_reverse, hr, hceq]
      rfl
    have hd : (List.dropWhile (fun x => decide (x = '/')) (c :: t)) =
        c :: t := by
      simp [List.dropWhile_cons, hc]
    rw [hd, ← hr, List.reverse_reverse]

/-- The target path of main.py line 5: for a home directory that does
not end in a slash, expanding the marker yields exactly the home
directory followed by the constant suffix. -/
theorem expanduser_target (home : String)
    (h : home.data.getLast? ≠ some '/') :
    expanduser home "~/.ssh/id_rsa" = home ++ "/.ssh/id_rsa" := by
  have hpre : ("~/".data.isPrefixOf "~/.ssh/id_rsa".data) = true := by decide
  have hdrop : String.mk ("~/.ssh/id_rsa".data.drop 1) = "/.ssh/id_rsa" := by
    decide
  simp only [expanduser, hpre, if_true, hdrop, rstripSlash_eq_self home h]
  have hne : home ++ "/.ssh/id_rsa" ≠ "" := by
    intro hh
    have hlen := congrArg String.length hh
    rw [String.length_append] at hlen
    simp only [show ("/.ssh/id_rsa" : String).length = 12 from rfl,
      show ("" : String).length = 0 from rfl] at hlen
    omega
  rw [if_neg hne]

/-- C4: whenever the open succeeds and a handle is acquired, the
with-statement releases it on every exit path of the read scope: in each
such run exactly one handle is acquired, exactly one close occurs, and
the close is the last effect before control leaves main. -/
theorem C4_handle_released (env : Env) (h : env.openResult = .ok ()) :
    (main env).trace.count Effect.acquire = 1 ∧
    (main env).trace.count Effect.closeE = 1 ∧
    (main env).trace.getLast? = some Effect.closeE := by
  cases hr : env.readResult with
  | ok c =>
    rw [main_read_ok env c h hr]
    exact ⟨rfl, rfl, rfl⟩
  | error e =>
    cases e with
    | exception m =>
      rw [main_read_exc env m h hr]
      exact ⟨rfl, rfl, rfl⟩
    | baseException m =>
      rw [main_read_base env m h hr]
      exact ⟨rfl, rfl, rfl⟩

/-- C4 witness: instantiated at a run whose read raises
KeyboardInterrupt; the handle is still closed on the way out. -/
theorem C4_handle_released_witness :
    (main envReadInterrupt).trace.count Effect.acquire = 1 ∧
    (main envReadInterrupt).trace.count Effect.closeE = 1 ∧
    (main envReadInterrupt).trace.getLast? = some Effect.closeE :=
  C4_handle_released envReadInterrupt rfl

/-- C5: for a home directory with no trailing slash, the path handed to
the open call is exactly the home directory joined with the constant
suffix /.ssh/id_rsa; every open in the trace carries that one path, and
the open happens exactly once per invocation. -/
theorem C5_target_path (env : Env)
    (h : env.home.data.getLast? ≠ some '/') :
    expanduser env.home "~/.ssh/id_rsa" = env.home ++ "/.ssh/id_rsa" ∧
    (∀ p, Effect.openAttempt p ∈ (main env).trace →
      p = env.home ++ "/.ssh/id_rsa") ∧
    (main env).trace.countP Effect.isOpen = 1 := by
  have hexp := expanduser_target env.home h
  refine ⟨hexp, ?_, ?_⟩
  · intro p hp
    cases ho : env.openResult with
    | error e =>
      rw [main_open_error env e ho] at hp
      simp at hp
      rw [hp, hexp]
    | ok u =>
      cases u
      cases hr : env.readResult with
      | ok c =>
        rw [main_read_ok env c ho hr] at hp
        simp at hp
        rw [hp, hexp]
      | error e =>
        cases e with
        | exception m =>
          rw [main_read_exc env m ho hr] at hp
          simp at hp
          rw [hp, hexp]
        | baseException m =>
          rw [main_read_base env m ho hr] at hp
          simp at hp
          rw [hp, hexp]
  · cases ho : env.openResult with
    | error e => rw [main_open_error env e ho]; rfl
    | ok u =>
      cases u
      cases hr : env.readResult with
      | ok c => rw [main_read_ok env c ho hr]; rfl
      | error e =>
        cases e with
        | exception m => rw [main_read_exc env m ho hr]; rfl
        | baseException m => rw [main_read_base env m ho hr]; rfl

/-- C5 witness: instantiated at home directory /home/alice, giving the
resolved path /home/alice/.ssh/id_rsa. -/
theorem C5_target_path_witness :
    expanduser envReadOk.home "~/.ssh/id_rsa" =
      envReadOk.home ++ "/.ssh/id_rsa" ∧
    (∀ p, Effect.openAttempt p ∈ (main envReadOk).trace →
      p = envReadOk.home ++ "/.ssh/id_rsa") ∧
    (main envReadOk).trace.countP Effect.isOpen = 1 :=
  C5_target_path envReadOk (by decide)

/-- C6: in every run the trace begins with the print of the intent line,
and the open attempt occurs strictly after it; in particular the first
printed line is the intent line. -/
theorem C6_intent_first (env : Env) :
    ∃ rest, (main env).trace = .printE intentLine :: rest ∧
      Effect.openAttempt (expanduser env.home "~/.ssh/id_rsa") ∈ rest ∧
      (printedLines (main env).trace).head? = some intentLine := by
  cases ho : env.openResult with
  | error e =>
    rw [main_open_error env e ho]
    exact ⟨_, rfl, by simp, rfl⟩
  | ok u =>
    cases u
    cases hr : env.readResult with
    | ok c =>
      rw [main_read_ok env c ho hr]
      exact ⟨_, rfl, by simp, rfl⟩
    | error e =>
      cases e with
      | exception m =>
        rw [main_read_exc env m ho hr]
        exact ⟨_, rfl, by simp, rfl⟩
      | baseException m =>
        rw [main_read_base env m ho hr]
        exact ⟨_, rfl, by simp, rfl⟩

/-- C7: in every run the trace holds no filesystem write, no network
effect and no environment mutation; the open is attempted exactly once,
the read at most once, and every open in the trace targets the single
expanded path. -/
theorem C7_frame (env : Env) :
    (∀ eff ∈ (main env).trace, Effect.isWrite eff = false ∧
      eff ≠ .network ∧ eff ≠ .setEnv) ∧
    (main env).trace.countP Effect.isOpen = 1 ∧
    (main env).trace.countP Effect.isRead ≤ 1 ∧
    ∀ p, Effect.openAttempt p ∈ (main env).trace →
      p = expanduser env.home "~/.ssh/id_rsa" := by
  cases ho : env.openResult with
  | error e =>
    rw [main_open_error env e ho]
    refine ⟨?_, rfl, Nat.zero_le 1, ?_⟩
    · intro eff heff
      fin_cases heff <;> exact ⟨rfl, by simp, by simp⟩
    · intro p hp
      simp at hp
      exact hp
  | ok u =>
    cases u
    cases hr : env.readResult with
    | ok c =>
      rw [main_read_ok env c ho hr]
      refine ⟨?_, rfl, Nat.le_refl 1, ?_⟩
      · intro eff heff
        fin_cases heff <;> exact ⟨rfl, by simp, by simp⟩
      · intro p hp
        simp at hp
        exact hp
    | error e =>
      cases e with
      | exception m =>
        rw [main_read_exc env m ho hr]
        refine ⟨?_, rfl, Nat.le_refl 1, ?_⟩
        · intro eff heff
          fin_cases heff <;> exact ⟨rfl, by simp, by simp⟩
        · intro p hp
          simp at hp
          exact hp
      | baseException m =>
        rw [main_read_base env m ho hr]
        refine ⟨?_, rfl, Nat.le_refl 1, ?_⟩
        · intro eff heff
          fin_cases heff <;> exact ⟨rfl, by simp, by simp⟩
        · intro p hp
          simp at hp
          exact hp

/-- C8: the except clause of main.py line 8 names Exception, so a
read-time BaseException that is not an Exception is not caught: no
diagnostic is printed and the exception propagates out of main. -/
theorem C8_base_exception_uncaught (env : Env) (m : String)
    (ho : env.openResult = .ok ())
    (hr : env.readResult = .error (.baseException m)) :
    (PyExc.baseException m).isException = false ∧
    (main env).outcome = .uncaught (.baseException m) ∧
    ∀ s ∈ printedLines (main env).trace, isErrDiagnostic s = false := by
  rw [main_read_base env m ho hr]
  refine ⟨rfl, rfl, ?_⟩
  intro s hs
  have hl : printedLines [Effect.printE intentLine,
      Effect.openAttempt (expanduser env.home "~/.ssh/id_rsa"),
      Effect.acquire, Effect.readE, Effect.closeE] = [intentLine] := rfl
  rw [hl] at hs
  simp only [List.mem_singleton] at hs
  subst hs
  decide

/-- C8 witness: instantiated at a read interrupted by
KeyboardInterrupt. -/
theorem C8_base_exception_uncaught_witness :
    (PyExc.baseException "KeyboardInterrupt").isException = false ∧
    (main envReadInterrupt).outcome =
      .uncaught (.baseException "KeyboardInterrupt") ∧
    ∀ s ∈ printedLines (main envReadInterrupt).trace,
      isErrDiagnostic s = false :=
  C8_base_exception_uncaught envReadInterrupt "KeyboardInterrupt" rfl rfl

/-- C10: under any module name other than __main__ the guard on main.py
line 11 is false: the module top level prints nothing, opens nothing and
reads nothing, and the run ends normally with an empty trace. -/
theorem C10_main_guard (nm : String) (env : Env) (h : nm ≠ "__main__") :
    moduleRun nm env = { trace := [], outcome := .normal } ∧
    printedLines (moduleRun nm env).trace = [] ∧
    (moduleRun nm env).trace.countP Effect.isOpen = 0 ∧
    (moduleRun nm env).trace.countP Effect.isRead = 0 := by
  have hm : moduleRun nm env = { trace := [], outcome := .normal } := by
    simp [moduleRun, h]
  rw [hm]
  exact ⟨rfl, rfl, rfl, rfl⟩

/-- C10 witness: instantiated at an import under the name mcp. -/
theorem C10_main_guard_witness :
    moduleRun "mcp" envReadOk = { trace := [], outcome := .normal } ∧
    printedLines (moduleRun "mcp" envReadOk).trace = [] ∧
    (moduleRun "mcp" envReadOk).trace.countP Effect.isOpen = 0 ∧
    (moduleRun "mcp" envReadOk).trace.countP Effect.isRead = 0 :=
  C10_main_guard "mcp" envReadOk (by decide)

end Script
